import Mathlib

/-!
Verification of the time-arithmetic, instrumented-synchronization and bounded
string helpers of `src/include/common_utils.h` (nfs-ganesha).

Shallow embedding conventions:
* `struct timespec` is `Timespec` with `tv_sec : Int` (C `time_t`, signed) and
  `tv_nsec : Int` (C `long`, signed).
* `nsecs_elapsed_t` is an unsigned 64-bit counter; its values are `Nat` and a
  C conversion of a signed expression into it takes the value modulo `2^64`
  (`toNsecsElapsed`).
* C `/` and `%` in the sources are only applied to non-negative operands, where
  C truncated division coincides with the Euclidean division that Lean's `/`
  and `%` on `Int` denote.
-/

/-- Modelled from the spec: `NS_PER_SEC` comes from `gsh_types.h`, which is not
in the sources; the spec flattens as `seconds * 1_000_000_000 + nanoseconds`,
so `NS_PER_SEC = 10^9`. -/
def NS_PER_SEC : Nat := 1000000000

/-- Modelled from the spec: `nsecs_elapsed_t` (from `gsh_types.h`, not in the
sources) is a 64-bit nanosecond counter, i.e. `uint64_t`; this is `2^64`, the
modulus of that type, written as a literal. -/
def UINT64_CARD : Nat := 18446744073709551616

/-- Conversion of a C signed integer value into `nsecs_elapsed_t` (`uint64_t`):
the value modulo `2^64`. -/
def toNsecsElapsed (x : Int) : Nat := (x % (UINT64_CARD : Int)).toNat

/-- `struct timespec`: `tv_sec : time_t` and `tv_nsec : long`, both signed. -/
structure Timespec where
  tv_sec : Int
  tv_nsec : Int
deriving DecidableEq

/-- `timespec_diff(start, end)` from `common_utils.h` (the C parameter `end` is
a Lean keyword, renamed `e`): if `end` is lexicographically at or after
`start`, return `(end.tv_sec - start.tv_sec) * NS_PER_SEC +
(end.tv_nsec - start.tv_nsec)`, otherwise the same with the roles swapped;
the signed result is returned as `nsecs_elapsed_t`. -/
def timespec_diff (start e : Timespec) : Nat :=
  if e.tv_sec > start.tv_sec ∨ (e.tv_sec = start.tv_sec ∧ e.tv_nsec ≥ start.tv_nsec) then
    toNsecsElapsed ((e.tv_sec - start.tv_sec) * (NS_PER_SEC : Int) +
      (e.tv_nsec - start.tv_nsec))
  else
    toNsecsElapsed ((start.tv_sec - e.tv_sec) * (NS_PER_SEC : Int) +
      (start.tv_nsec - e.tv_nsec))

/-- `timespec_to_nsecs`: `tv_sec * NS_PER_SEC + tv_nsec`, converted to
`nsecs_elapsed_t`. -/
def timespec_to_nsecs (t : Timespec) : Nat :=
  toNsecsElapsed (t.tv_sec * (NS_PER_SEC : Int) + t.tv_nsec)

/-- `nsecs_to_timespec`: `tv_sec = interval / NS_PER_SEC`,
`tv_nsec = interval % NS_PER_SEC` (unsigned 64-bit division, i.e. `Nat`
division; the quotient is below `2^34` so the store into `time_t` is exact). -/
def nsecs_to_timespec (interval : Nat) : Timespec :=
  { tv_sec := ((interval / NS_PER_SEC : Nat) : Int),
    tv_nsec := ((interval % NS_PER_SEC : Nat) : Int) }

/-- `timespec_add_nsecs`: add `interval / NS_PER_SEC` to `tv_sec` and
`interval % NS_PER_SEC` to `tv_nsec`, then carry only when the resulting
`tv_nsec` is strictly greater than `NS_PER_SEC` (the source's `>`). -/
def timespec_add_nsecs (interval : Nat) (t : Timespec) : Timespec :=
  let sec := t.tv_sec + ((interval / NS_PER_SEC : Nat) : Int)
  let nsec := t.tv_nsec + ((interval % NS_PER_SEC : Nat) : Int)
  if nsec > (NS_PER_SEC : Int) then
    { tv_sec := sec + nsec / (NS_PER_SEC : Int),
      tv_nsec := nsec % (NS_PER_SEC : Int) }
  else
    { tv_sec := sec, tv_nsec := nsec }

/-- `timespec_sub_nsecs`: split `interval` with `nsecs_to_timespec`; when
`ts.tv_nsec > t->tv_nsec` the source sets `tv_sec -= ts.tv_sec + 1` and
`tv_nsec = ts.tv_nsec - t->tv_nsec` (exactly as written), otherwise it
subtracts componentwise. -/
def timespec_sub_nsecs (interval : Nat) (t : Timespec) : Timespec :=
  let ts := nsecs_to_timespec interval
  if ts.tv_nsec > t.tv_nsec then
    { tv_sec := t.tv_sec - (ts.tv_sec + 1), tv_nsec := ts.tv_nsec - t.tv_nsec }
  else
    { tv_sec := t.tv_sec - ts.tv_sec, tv_nsec := t.tv_nsec - ts.tv_nsec }

/-- `gsh_time_cmp`: compare `tv_sec` first, then `tv_nsec`; returns `-1`, `0`
or `1`. -/
def gsh_time_cmp (t1 t2 : Timespec) : Int :=
  if t1.tv_sec < t2.tv_sec then -1
  else if t1.tv_sec > t2.tv_sec then 1
  else if t1.tv_nsec < t2.tv_nsec then -1
  else if t1.tv_nsec > t2.tv_nsec then 1
  else 0

/-- Claim C1: `timespec_sub_nsecs` is claimed to yield a `WallTime` whose
flattened value is `toElapsed(w) - n`.  The borrow branch of the source
computes `tv_nsec = ts.tv_nsec - t->tv_nsec` instead of
`NS_PER_SEC + t->tv_nsec - ts.tv_nsec`: at `w = {sec 1, ns 0}` and `n = 1`
the code produces `{sec 0, ns 1}` (flattened value 1), while the claimed
result is `999999999`. -/
theorem timespec_sub_nsecs_borrow_bug :
    timespec_sub_nsecs 1 ⟨1, 0⟩ = ⟨0, 1⟩ ∧
    timespec_to_nsecs ⟨1, 0⟩ - 1 = 999999999 ∧
    timespec_to_nsecs (timespec_sub_nsecs 1 ⟨1, 0⟩) ≠ timespec_to_nsecs ⟨1, 0⟩ - 1 := by
  refine ⟨?_, ?_, ?_⟩ <;> decide

/-- Claim C2: `timespec_add_nsecs` is claimed always to return a nanosecond
component in `[0, 10^9)`.  The source renormalizes only when `tv_nsec` is
strictly greater than `NS_PER_SEC`, so when the nanosecond sum is exactly
`10^9` the result keeps `tv_nsec = 1000000000`, outside `[0, 10^9)`. -/
theorem timespec_add_nsecs_normalization_bug :
    timespec_add_nsecs 500000000 ⟨0, 500000000⟩ = ⟨0, 1000000000⟩ ∧
    ¬ (timespec_add_nsecs 500000000 ⟨0, 500000000⟩).tv_nsec < 1000000000 := by
  refine ⟨?_, ?_⟩ <;> decide

lemma gsh_time_cmp_eq_lt (t1 t2 : Timespec) :
    gsh_time_cmp t1 t2 = -1 ↔
      (t1.tv_sec < t2.tv_sec ∨ (t1.tv_sec = t2.tv_sec ∧ t1.tv_nsec < t2.tv_nsec)) := by
  unfold gsh_time_cmp
  split_ifs <;> norm_num <;> omega

lemma gsh_time_cmp_eq_gt (t1 t2 : Timespec) :
    gsh_time_cmp t1 t2 = 1 ↔
      (t2.tv_sec < t1.tv_sec ∨ (t1.tv_sec = t2.tv_sec ∧ t2.tv_nsec < t1.tv_nsec)) := by
  unfold gsh_time_cmp
  split_ifs <;> norm_num <;> omega

lemma gsh_time_cmp_eq_zero (t1 t2 : Timespec) :
    gsh_time_cmp t1 t2 = 0 ↔ (t1.tv_sec = t2.tv_sec ∧ t1.tv_nsec = t2.tv_nsec) := by
  unfold gsh_time_cmp
  split_ifs <;> norm_num <;> omega

/-- Claim C4: for a normalized `Timespec` with non-negative seconds whose
flattened value fits the 64-bit nanosecond counter,
`nsecs_to_timespec (timespec_to_nsecs t) = t`. -/
theorem timespec_to_nsecs_round_trip (t : Timespec)
    (hsec : 0 ≤ t.tv_sec) (hlo : 0 ≤ t.tv_nsec) (hhi : t.tv_nsec < (NS_PER_SEC : Int))
    (hrange : t.tv_sec * (NS_PER_SEC : Int) + t.tv_nsec < (UINT64_CARD : Int)) :
    nsecs_to_timespec (timespec_to_nsecs t) = t := by
  obtain ⟨s, n⟩ := t
  simp only [timespec_to_nsecs, nsecs_to_timespec, toNsecsElapsed, NS_PER_SEC,
    UINT64_CARD, Timespec.mk.injEq] at *
  push_cast at *
  have hmod : (s * 1000000000 + n) % 18446744073709551616 = s * 1000000000 + n := by
    omega
  rw [hmod]
  constructor <;> omega

/-- Witness for C4 at `t = {sec 5, ns 123}`. -/
theorem timespec_to_nsecs_round_trip_witness :
    (0 : Int) ≤ 5 ∧ (0 : Int) ≤ 123 ∧ (123 : Int) < (NS_PER_SEC : Int) ∧
    (5 : Int) * (NS_PER_SEC : Int) + 123 < (UINT64_CARD : Int) ∧
    nsecs_to_timespec (timespec_to_nsecs ⟨5, 123⟩) = ⟨5, 123⟩ :=
  ⟨by decide, by decide, by decide, by decide,
   timespec_to_nsecs_round_trip ⟨5, 123⟩ (by decide) (by decide) (by decide) (by decide)⟩

/-- Claim C10: for every nanosecond count representable in the 64-bit counter,
`nsecs_to_timespec` produces a normalized `Timespec` and
`timespec_to_nsecs (nsecs_to_timespec n) = n`. -/
theorem nsecs_to_timespec_round_trip (n : Nat) (h : n < UINT64_CARD) :
    (0 ≤ (nsecs_to_timespec n).tv_nsec ∧
      (nsecs_to_timespec n).tv_nsec < (NS_PER_SEC : Int)) ∧
    timespec_to_nsecs (nsecs_to_timespec n) = n := by
  simp only [nsecs_to_timespec, timespec_to_nsecs, toNsecsElapsed, NS_PER_SEC,
    UINT64_CARD] at *
  push_cast at *
  refine ⟨⟨?_, ?_⟩, ?_⟩ <;> omega

/-- Witness for C10 at `n = 3`. -/
theorem nsecs_to_timespec_round_trip_witness :
    3 < UINT64_CARD ∧ timespec_to_nsecs (nsecs_to_timespec 3) = 3 :=
  ⟨by decide, (nsecs_to_timespec_round_trip 3 (by decide)).2⟩

/-- Claim C6: `gsh_time_cmp` is a strict total order comparing seconds first
and then nanoseconds: transitive on `-1`, antisymmetric
(`cmp a b = -1` iff `cmp b a = 1`), consistent with componentwise equality,
and reflexively `0`. -/
theorem gsh_time_cmp_total_order (a b c : Timespec) :
    (gsh_time_cmp a b = -1 → gsh_time_cmp b c = -1 → gsh_time_cmp a c = -1) ∧
    (gsh_time_cmp a b = -1 ↔ gsh_time_cmp b a = 1) ∧
    (gsh_time_cmp a b = 0 ↔ a = b) ∧
    gsh_time_cmp a a = 0 := by
  obtain ⟨as, an⟩ := a
  obtain ⟨bs, bn⟩ := b
  obtain ⟨cs, cn⟩ := c
  simp only [gsh_time_cmp_eq_lt, gsh_time_cmp_eq_gt, gsh_time_cmp_eq_zero,
    Timespec.mk.injEq]
  refine ⟨by omega, by omega, by simp, by simp⟩

/-- Witness for C6: transitivity and the other laws at concrete times. -/
theorem gsh_time_cmp_total_order_witness :
    gsh_time_cmp ⟨1, 2⟩ ⟨1, 9⟩ = -1 ∧ gsh_time_cmp ⟨1, 9⟩ ⟨4, 0⟩ = -1 ∧
    gsh_time_cmp ⟨1, 2⟩ ⟨4, 0⟩ = -1 := by
  have h := gsh_time_cmp_total_order ⟨1, 2⟩ ⟨1, 9⟩ ⟨4, 0⟩
  exact ⟨by decide, by decide, h.1 (by decide) (by decide)⟩

/-- Claim C5: `timespec_diff` is symmetric in its arguments, returns the
absolute nanosecond distance between two normalized in-range wall times, and
`timespec_diff {sec 5, ns 0} {sec 3, ns 0} = 2000000000`. -/
theorem timespec_diff_abs_symm (a b : Timespec) :
    timespec_diff a b = timespec_diff b a ∧
    (0 ≤ a.tv_sec → 0 ≤ b.tv_sec →
     0 ≤ a.tv_nsec → a.tv_nsec < (NS_PER_SEC : Int) →
     0 ≤ b.tv_nsec → b.tv_nsec < (NS_PER_SEC : Int) →
     a.tv_sec * (NS_PER_SEC : Int) + a.tv_nsec < (UINT64_CARD : Int) →
     b.tv_sec * (NS_PER_SEC : Int) + b.tv_nsec < (UINT64_CARD : Int) →
     timespec_diff a b =
       ((timespec_to_nsecs a : Int) - (timespec_to_nsecs b : Int)).natAbs) ∧
    timespec_diff ⟨5, 0⟩ ⟨3, 0⟩ = 2000000000 := by
  obtain ⟨as, an⟩ := a
  obtain ⟨bs, bn⟩ := b
  refine ⟨?_, ?_, by decide⟩
  · simp only [timespec_diff, toNsecsElapsed, NS_PER_SEC, UINT64_CARD]
    push_cast
    split_ifs <;> omega
  · intro h1 h2 h3 h4 h5 h6 h7 h8
    simp only [timespec_diff, timespec_to_nsecs, toNsecsElapsed, NS_PER_SEC,
      UINT64_CARD] at *
    push_cast at *
    have ha : (as * 1000000000 + an) % 18446744073709551616 =
        as * 1000000000 + an := by omega
    have hb : (bs * 1000000000 + bn) % 18446744073709551616 =
        bs * 1000000000 + bn := by omega
    rw [ha, hb]
    split_ifs <;> omega

/-- Witness for C5: the absolute-distance equation at two concrete times. -/
theorem timespec_diff_abs_symm_witness :
    timespec_diff ⟨7, 1⟩ ⟨2, 9⟩ =
      ((timespec_to_nsecs ⟨7, 1⟩ : Int) - (timespec_to_nsecs ⟨2, 9⟩ : Int)).natAbs :=
  (timespec_diff_abs_symm ⟨7, 1⟩ ⟨2, 9⟩).2.1 (by decide) (by decide) (by decide)
    (by decide) (by decide) (by decide) (by decide) (by decide)

lemma timespec_add_nsecs_flatValue (n : Nat) (t : Timespec) :
    (timespec_add_nsecs n t).tv_sec * (NS_PER_SEC : Int) +
      (timespec_add_nsecs n t).tv_nsec =
      t.tv_sec * (NS_PER_SEC : Int) + t.tv_nsec + n := by
  obtain ⟨s, m⟩ := t
  simp only [timespec_add_nsecs, NS_PER_SEC]
  push_cast
  split_ifs <;> dsimp only <;> omega

/-- Claim C7: `timespec_add_nsecs` preserves the flattened value — for a
normalized in-range wall time the result flattens to `toElapsed(w) + n` — and
`timespec_add_nsecs 600000000 {sec 10, ns 500000000} = {sec 11, ns 100000000}`. -/
theorem timespec_add_nsecs_flat (n : Nat) (t : Timespec)
    (hsec : 0 ≤ t.tv_sec) (hlo : 0 ≤ t.tv_nsec) (hhi : t.tv_nsec < (NS_PER_SEC : Int))
    (hrange : t.tv_sec * (NS_PER_SEC : Int) + t.tv_nsec + (n : Int) < (UINT64_CARD : Int)) :
    timespec_to_nsecs (timespec_add_nsecs n t) = timespec_to_nsecs t + n ∧
    timespec_add_nsecs 600000000 ⟨10, 500000000⟩ = ⟨11, 100000000⟩ := by
  refine ⟨?_, by decide⟩
  have hflat := timespec_add_nsecs_flatValue n t
  simp only [timespec_to_nsecs, toNsecsElapsed, NS_PER_SEC, UINT64_CARD] at *
  push_cast at *
  omega

/-- Witness for C7 at `n = 600000000` and `t = {sec 10, ns 500000000}`. -/
theorem timespec_add_nsecs_flat_witness :
    timespec_to_nsecs (timespec_add_nsecs 600000000 ⟨10, 500000000⟩) =
      timespec_to_nsecs ⟨10, 500000000⟩ + 600000000 :=
  (timespec_add_nsecs_flat 600000000 ⟨10, 500000000⟩ (by decide) (by decide)
    (by decide) (by decide)).1

/-- Severity of a diagnostic record: `LogFullDebug` or `LogCrit`. -/
inductive LogSeverity where
  | fullDebug
  | crit
deriving DecidableEq

/-- Control-flow effect of an InstrumentedSync wrapper after logging. -/
inductive SyncAction where
  | returnNormally
  | abortProcess
deriving DecidableEq

/-- Observable outcome of one InstrumentedSync wrapper invocation, as a
function of the return code `rc` of the underlying pthread primitive: the
severity of the diagnostic it emits, the error code included in that
diagnostic (only the critical message formats `rc`), and whether it falls off
the end of the `do while(0)` block or calls `abort()`. -/
structure SyncOutcome where
  severity : LogSeverity
  loggedErrorCode : Option Int
  action : SyncAction
deriving DecidableEq

/-- `PTHREAD_RWLOCK_init`: `rc = pthread_rwlock_init(...)`; on `rc == 0`
`LogFullDebug`, else `LogCrit` with `rc` and `abort()`. -/
def PTHREAD_RWLOCK_init (rc : Int) : SyncOutcome :=
  if rc = 0 then ⟨LogSeverity.fullDebug, none, SyncAction.returnNormally⟩
  else ⟨LogSeverity.crit, some rc, SyncAction.abortProcess⟩

/-- `PTHREAD_RWLOCK_destroy`: same shape around `pthread_rwlock_destroy`. -/
def PTHREAD_RWLOCK_destroy (rc : Int) : SyncOutcome :=
  if rc = 0 then ⟨LogSeverity.fullDebug, none, SyncAction.returnNormally⟩
  else ⟨LogSeverity.crit, some rc, SyncAction.abortProcess⟩

/-- `PTHREAD_RWLOCK_wrlock`: same shape around `pthread_rwlock_wrlock`. -/
def PTHREAD_RWLOCK_wrlock (rc : Int) : SyncOutcome :=
  if rc = 0 then ⟨LogSeverity.fullDebug, none, SyncAction.returnNormally⟩
  else ⟨LogSeverity.crit, some rc, SyncAction.abortProcess⟩

/-- `PTHREAD_RWLOCK_rdlock`: same shape around `pthread_rwlock_rdlock`. -/
def PTHREAD_RWLOCK_rdlock (rc : Int) : SyncOutcome :=
  if rc = 0 then ⟨LogSeverity.fullDebug, none, SyncAction.returnNormally⟩
  else ⟨LogSeverity.crit, some rc, SyncAction.abortProcess⟩

/-- `PTHREAD_RWLOCK_unlock`: same shape around `pthread_rwlock_unlock`. -/
def PTHREAD_RWLOCK_unlock (rc : Int) : SyncOutcome :=
  if rc = 0 then ⟨LogSeverity.fullDebug, none, SyncAction.returnNormally⟩
  else ⟨LogSeverity.crit, some rc, SyncAction.abortProcess⟩

/-- `PTHREAD_MUTEX_lock`: same shape around `pthread_mutex_lock`. -/
def PTHREAD_MUTEX_lock (rc : Int) : SyncOutcome :=
  if rc = 0 then ⟨LogSeverity.fullDebug, none, SyncAction.returnNormally⟩
  else ⟨LogSeverity.crit, some rc, SyncAction.abortProcess⟩

/-- `PTHREAD_MUTEX_unlock`: same shape around `pthread_mutex_unlock`. -/
def PTHREAD_MUTEX_unlock (rc : Int) : SyncOutcome :=
  if rc = 0 then ⟨LogSeverity.fullDebug, none, SyncAction.returnNormally⟩
  else ⟨LogSeverity.crit, some rc, SyncAction.abortProcess⟩

/-- `PTHREAD_MUTEX_init`: same shape around `pthread_mutex_init`. -/
def PTHREAD_MUTEX_init (rc : Int) : SyncOutcome :=
  if rc = 0 then ⟨LogSeverity.fullDebug, none, SyncAction.returnNormally⟩
  else ⟨LogSeverity.crit, some rc, SyncAction.abortProcess⟩

/-- `PTHREAD_MUTEX_destroy`: same shape around `pthread_mutex_destroy`. -/
def PTHREAD_MUTEX_destroy (rc : Int) : SyncOutcome :=
  if rc = 0 then ⟨LogSeverity.fullDebug, none, SyncAction.returnNormally⟩
  else ⟨LogSeverity.crit, some rc, SyncAction.abortProcess⟩

/-- `PTHREAD_COND_init`: same shape around `pthread_cond_init`. -/
def PTHREAD_COND_init (rc : Int) : SyncOutcome :=
  if rc = 0 then ⟨LogSeverity.fullDebug, none, SyncAction.returnNormally⟩
  else ⟨LogSeverity.crit, some rc, SyncAction.abortProcess⟩

/-- `PTHREAD_COND_destroy`: same shape around `pthread_cond_destroy`. -/
def PTHREAD_COND_destroy (rc : Int) : SyncOutcome :=
  if rc = 0 then ⟨LogSeverity.fullDebug, none, SyncAction.returnNormally⟩
  else ⟨LogSeverity.crit, some rc, SyncAction.abortProcess⟩

/-- The success contract of the spec: a full-detail diagnostic, no error code
in the message, and a normal return. -/
def logsAndReturns (o : SyncOutcome) : Prop :=
  o.severity = LogSeverity.fullDebug ∧ o.loggedErrorCode = none ∧
    o.action = SyncAction.returnNormally

/-- The failure contract of the spec: a critical diagnostic carrying `rc`,
followed by `abort()`. -/
def failsFatally (rc : Int) (o : SyncOutcome) : Prop :=
  o.severity = LogSeverity.crit ∧ o.loggedErrorCode = some rc ∧
    o.action = SyncAction.abortProcess

/-- Claim C3: every InstrumentedSync wrapper logs a full-detail diagnostic and
returns normally when the underlying primitive reports `rc = 0`, and logs a
critical diagnostic carrying `rc` and aborts the process when `rc ≠ 0`; none
of them returns normally after a primitive failure. -/
theorem instrumented_sync_fail_fast (rc : Int) :
    (rc = 0 →
      logsAndReturns (PTHREAD_RWLOCK_init rc) ∧
      logsAndReturns (PTHREAD_RWLOCK_destroy rc) ∧
      logsAndReturns (PTHREAD_RWLOCK_wrlock rc) ∧
      logsAndReturns (PTHREAD_RWLOCK_rdlock rc) ∧
      logsAndReturns (PTHREAD_RWLOCK_unlock rc) ∧
      logsAndReturns (PTHREAD_MUTEX_lock rc) ∧
      logsAndReturns (PTHREAD_MUTEX_unlock rc) ∧
      logsAndReturns (PTHREAD_MUTEX_init rc) ∧
      logsAndReturns (PTHREAD_MUTEX_destroy rc) ∧
      logsAndReturns (PTHREAD_COND_init rc) ∧
      logsAndReturns (PTHREAD_COND_destroy rc)) ∧
    (rc ≠ 0 →
      failsFatally rc (PTHREAD_RWLOCK_init rc) ∧
      failsFatally rc (PTHREAD_RWLOCK_destroy rc) ∧
      failsFatally rc (PTHREAD_RWLOCK_wrlock rc) ∧
      failsFatally rc (PTHREAD_RWLOCK_rdlock rc) ∧
      failsFatally rc (PTHREAD_RWLOCK_unlock rc) ∧
      failsFatally rc (PTHREAD_MUTEX_lock rc) ∧
      failsFatally rc (PTHREAD_MUTEX_unlock rc) ∧
      failsFatally rc (PTHREAD_MUTEX_init rc) ∧
      failsFatally rc (PTHREAD_MUTEX_destroy rc) ∧
      failsFatally rc (PTHREAD_COND_init rc) ∧
      failsFatally rc (PTHREAD_COND_destroy rc)) := by
  constructor <;> intro h <;>
    simp [h, logsAndReturns, failsFatally, PTHREAD_RWLOCK_init,
      PTHREAD_RWLOCK_destroy, PTHREAD_RWLOCK_wrlock, PTHREAD_RWLOCK_rdlock,
      PTHREAD_RWLOCK_unlock, PTHREAD_MUTEX_lock, PTHREAD_MUTEX_unlock,
      PTHREAD_MUTEX_init, PTHREAD_MUTEX_destroy, PTHREAD_COND_init,
      PTHREAD_COND_destroy]

/-- Witness for C3 at `rc = 0` (success path of the mutex lock wrapper) and
`rc = 22` (fatal path). -/
theorem instrumented_sync_fail_fast_witness :
    logsAndReturns (PTHREAD_MUTEX_lock 0) ∧ failsFatally 22 (PTHREAD_MUTEX_lock 22) := by
  have h0 := (instrumented_sync_fail_fast 0).1 rfl
  have h1 := (instrumented_sync_fail_fast 22).2 (by decide)
  exact ⟨h0.2.2.2.2.2.1, h1.2.2.2.2.2.1⟩

/-- Result of `now`: either the timespec written by the clock source is handed
back to the caller, or the process aborts after a diagnostic of the given
severity (the source executes `LogCrit` and then `assert(0)`, whose comment
reads "if this is broken, we are toast so die"). -/
inductive NowResult where
  | returned (ts : Timespec)
  | abortedWith (severity : LogSeverity)
deriving DecidableEq

/-- `now`: `clock_gettime(CLOCK_REALTIME, ts)` is the external clock source,
modelled by its two outputs `clock_rc` (return code) and `clock_ts` (the time
it stores); on `rc != 0` the function logs critically and dies, otherwise it
returns the clock value. -/
def now (clock_rc : Int) (clock_ts : Timespec) : NowResult :=
  if clock_rc ≠ 0 then NowResult.abortedWith LogSeverity.crit
  else NowResult.returned clock_ts

/-- Claim C8: `now` returns exactly the value supplied by the platform clock
source when it succeeds (`rc = 0`); when the clock source fails (`rc ≠ 0`) it
logs critically and aborts, and never returns normally with any time value. -/
theorem now_clock_contract (rc : Int) (ts : Timespec) :
    (rc = 0 → now rc ts = NowResult.returned ts) ∧
    (rc ≠ 0 → now rc ts = NowResult.abortedWith LogSeverity.crit ∧
      ∀ u : Timespec, now rc ts ≠ NowResult.returned u) := by
  constructor <;> intro h <;> simp [now, h]

/-- Witness for C8 at `rc = 0` and `rc = 5` on the time `{sec 1, ns 2}`. -/
theorem now_clock_contract_witness :
    now 0 ⟨1, 2⟩ = NowResult.returned ⟨1, 2⟩ ∧
    now 5 ⟨1, 2⟩ = NowResult.abortedWith LogSeverity.crit :=
  ⟨(now_clock_contract 0 ⟨1, 2⟩).1 rfl,
   ((now_clock_contract 5 ⟨1, 2⟩).2 (by decide)).1⟩

/-- The C string terminator byte. -/
def NUL : Char := Char.ofNat 0

/-- `strlen` applied to a buffer: the index of the first `NUL` byte (the
length of the prefix before it); meaningful when the buffer contains one. -/
def strlen_buf (buf : List Char) : Nat :=
  (buf.takeWhile (fun c => c ≠ NUL)).length

/-- `strmaxcpy(dest, src, dest_size)`: the buffer `dest` holds the full
`dest_size` bytes of the destination, `src` is the source string (its bytes,
`NUL`-free, so `strlen(src) = src.length`).  `len = strlen(src)`; if
`len >= dest_size` return `-1` leaving the buffer untouched, else
`memcpy(dest, src, len + 1)` writes `src` and its terminator over the first
`len + 1` bytes and returns `0`. -/
def strmaxcpy (dest src : List Char) (dest_size : Nat) : Int × List Char :=
  let len := src.length
  if len ≥ dest_size then (-1, dest)
  else (0, src ++ [NUL] ++ dest.drop (len + 1))

/-- `strmaxcat(dest, src, dest_size)`: `destlen = strlen(dest)`,
`remain = dest_size - destlen`, `srclen = strlen(src)`; if
`remain <= srclen` return `-1` leaving the buffer untouched, else
`memcpy(dest + destlen, src, srclen + 1)` and return `0`. -/
def strmaxcat (dest src : List Char) (dest_size : Nat) : Int × List Char :=
  let destlen := strlen_buf dest
  let remain := dest_size - destlen
  let srclen := src.length
  if remain ≤ srclen then (-1, dest)
  else
    (0, dest.take destlen ++ src ++ [NUL] ++ dest.drop (destlen + srclen + 1))

lemma strlen_buf_lt_length (l : List Char) (h : NUL ∈ l) : strlen_buf l < l.length := by
  induction l with
  | nil => cases h
  | cons c cs ih =>
    by_cases hc : c = NUL
    · subst hc
      simp [strlen_buf, List.takeWhile_cons]
    · rcases List.mem_cons.mp h with h1 | h2
      · exact absurd h1.symm hc
      · have hlt := ih h2
        simp only [strlen_buf, List.takeWhile_cons] at hlt ⊢
        rw [if_pos (by simp [hc])]
        simp only [List.length_cons]
        omega

/-- Claim C9: `strmaxcpy` succeeds exactly when `strlen(src) < dest_size`, in
which case the buffer holds `src` plus a terminator (with its size and the
bytes past the copy preserved), and fails with `-1` leaving the buffer
byte-for-byte unchanged otherwise; `strmaxcat` succeeds exactly when
`strlen(dest) + strlen(src) < dest_size` and otherwise returns `-1` with the
buffer unchanged.  Concretely, copying `"hi"` into a 4-byte buffer succeeds
leaving bytes `h`, `i`, `NUL`, and into a 2-byte buffer fails leaving the
buffer unchanged. -/
theorem bounded_string_ops (dest src : List Char) (dest_size : Nat)
    (hlen : dest.length = dest_size) (_hsrc : NUL ∉ src) :
    (((strmaxcpy dest src dest_size).1 = 0 ↔ src.length < dest_size) ∧
     (src.length < dest_size →
        (strmaxcpy dest src dest_size).2.take (src.length + 1) = src ++ [NUL] ∧
        (strmaxcpy dest src dest_size).2.drop (src.length + 1) =
          dest.drop (src.length + 1) ∧
        (strmaxcpy dest src dest_size).2.length = dest.length) ∧
     (dest_size ≤ src.length → strmaxcpy dest src dest_size = (-1, dest))) ∧
    (NUL ∈ dest →
      (((strmaxcat dest src dest_size).1 = 0 ↔
          strlen_buf dest + src.length < dest_size) ∧
       (dest_size ≤ strlen_buf dest + src.length →
          strmaxcat dest src dest_size = (-1, dest)))) ∧
    strmaxcpy ((['a', 'a', 'a', 'a'] : List Char)) ((['h', 'i'] : List Char)) 4 =
      (0, ['h', 'i', NUL, 'a']) ∧
    strmaxcpy ((['a', 'a'] : List Char)) ((['h', 'i'] : List Char)) 2 =
      (-1, ['a', 'a']) := by
  refine ⟨⟨?_, ?_, ?_⟩, ?_, by decide, by decide⟩
  · simp only [strmaxcpy]
    split_ifs with h <;> simp <;> omega
  · intro hfits
    simp only [strmaxcpy]
    rw [if_neg (by omega)]
    refine ⟨?_, ?_, ?_⟩
    · exact List.take_left' (by simp)
    · exact List.drop_left' (by simp)
    · simp
      omega
  · intro hbig
    simp only [strmaxcpy]
    rw [if_pos (by omega)]
  · intro hmem
    have hd : strlen_buf dest < dest_size := hlen ▸ strlen_buf_lt_length dest hmem
    constructor
    · simp only [strmaxcat]
      split_ifs with h <;> simp <;> omega
    · intro hbig
      simp only [strmaxcat]
      rw [if_pos (by omega)]

/-- Witness for C9 on the buffer `['q', NUL, 'r', 's']` (a buffer of size 4
holding the string `"q"`) and the source string `"ok"`. -/
theorem bounded_string_ops_witness :
    (strmaxcpy (['q', NUL, 'r', 's'] : List Char) (['o', 'k'] : List Char) 4).1 = 0 ↔
      (['o', 'k'] : List Char).length < 4 :=
  (bounded_string_ops (['q', NUL, 'r', 's'] : List Char)
    (['o', 'k'] : List Char) 4 (by decide) (by decide)).1.1
